import Mathlib

/-!
Shallow embedding of the grumptech garage-door core: the shared sensor base
(sensorBase.js), the sonar ranger (sonarSensor.js), the proximity-switch
debouncer (proxSensor.js) and the door controller (doorCntrl.js).

JavaScript numbers are modelled as rationals, JavaScript values of mixed type
as `JSVal`, fallible construction as `Except`, and the timer queue of the
event loop as explicit lists of scheduled callbacks.  Event emissions
(`result_changed`, `distance_changed`, `state_change`) are returned as lists
alongside the updated state.
-/

namespace GarageDoor

/-- `SENSOR_RESULT` enumeration from sensorBase.js (Unknown / Undetected /
Detected). -/
inductive SENSOR_RESULT where
  | UNKNOWN
  | UNDETECTED
  | DETECTED
  deriving DecidableEq, Repr, Fintype

/-- `DOOR_STATE` enumeration from doorCntrl.js. -/
inductive DOOR_STATE where
  | UNKNOWN
  | OPEN
  | OPENING
  | CLOSING
  | CLOSED
  deriving DecidableEq, Repr, Fintype

/-- sensorBase.js `SensorBase._setResult`: update the cached result and emit a
`result_changed (oldResult, newResult)` notification; a no-op (no event) when
the new value equals the cached one. Returns the new cached result and the
emitted events. -/
def setResultCore (oldResult newResult : SENSOR_RESULT) :
    SENSOR_RESULT × List (SENSOR_RESULT × SENSOR_RESULT) :=
  if oldResult ≠ newResult then (newResult, [(oldResult, newResult)])
  else (oldResult, [])

/-! ## Proximity switch sensor (proxSensor.js) -/

/-- proxSensor.js `_PROX_SWITCH_MODE.NORMALLY_CLOSED` (`true`); `NORMALLY_OPEN`
is `false`. -/
def PROX_SWITCH_MODE_NORMALLY_CLOSED : Bool := true

/-- The fields of a `ProximitySwitchSensor` instance used by the debounce
logic.  `debounceTimerIdSwitchState` mirrors `_debounceTimerIdSwitchState`
(set to `undefined` in the constructor) and `debounceTimerIdDoorState`
mirrors `_debounceTimerIdDoorState` (the field actually assigned by
`_stateChange`).  Timer ids are natural numbers. -/
structure ProxSensor where
  result : SENSOR_RESULT
  switchMode : Bool
  debounceTimerIdSwitchState : Option ℕ
  debounceTimerIdDoorState : Option ℕ
  deriving DecidableEq, Repr

/-- proxSensor.js `_convertSwitchReadToDetected`: polarity correction of the
raw level followed by the Detected/Undetected mapping. -/
def convertSwitchReadToDetected (switchMode : Bool) (rawReadValue : Bool) :
    SENSOR_RESULT :=
  let correctedRawRead :=
    if switchMode = PROX_SWITCH_MODE_NORMALLY_CLOSED then rawReadValue
    else !rawReadValue
  if correctedRawRead then SENSOR_RESULT.DETECTED else SENSOR_RESULT.UNDETECTED

/-- proxSensor.js `_updateSwitchState`: convert the raw reading and hand it to
the shared `_setResult`. -/
def updateSwitchState (s : ProxSensor) (rawSwitchReading : Bool) :
    ProxSensor × List (SENSOR_RESULT × SENSOR_RESULT) :=
  let res := setResultCore s.result
    (convertSwitchReadToDetected s.switchMode rawSwitchReading)
  ({ s with result := res.1 }, res.2)

/-- A proximity sensor together with the event loop's pending debounce
timeouts `(timerId, capturedRawReading)` in scheduling order, a fresh-id
counter, and the `result_changed` notifications published so far. -/
structure ProxSim where
  sensor : ProxSensor
  pendingTimers : List (ℕ × Bool)
  nextTimerId : ℕ
  published : List (SENSOR_RESULT × SENSOR_RESULT)
  deriving DecidableEq, Repr

/-- proxSensor.js `_stateChange` for an edge on `_gpioDetectIn`, faithfully:
`clearTimeout` is guarded on (and applied to) `_debounceTimerIdSwitchState`,
while the id of the newly scheduled debounce timeout is cached in
`_debounceTimerIdDoorState`. -/
def proxStateChange (sim : ProxSim) (value : Bool) : ProxSim :=
  let cleared :=
    match sim.sensor.debounceTimerIdSwitchState with
    | some tid => sim.pendingTimers.filter (fun t => t.1 != tid)
    | none => sim.pendingTimers
  { sim with
    pendingTimers := cleared ++ [(sim.nextTimerId, value)],
    nextTimerId := sim.nextTimerId + 1,
    sensor := { sim.sensor with
                  debounceTimerIdDoorState := some sim.nextTimerId } }

/-- Let every still-pending debounce timeout elapse, in scheduling order; each
one runs `_updateSwitchState` on its captured raw reading. -/
def fireDebounceTimers (sim : ProxSim) : ProxSim :=
  sim.pendingTimers.foldl
    (fun acc t =>
      let res := updateSwitchState acc.sensor t.2
      { acc with sensor := res.1, published := acc.published ++ res.2 })
    { sim with pendingTimers := [] }

/-- A burst of raw edges each arriving before any pending debounce timeout has
elapsed (in particular, within less than the debounce window of the previous
edge), followed by a stable level long enough for all remaining timeouts to
elapse. -/
def runRapidEdges (sim : ProxSim) (edges : List Bool) : ProxSim :=
  fireDebounceTimers (edges.foldl proxStateChange sim)

/-! ## JavaScript values and the sonar configuration (sonarSensor.js) -/

/-- A JavaScript value as far as the configuration handling observes it:
a number, a boolean, a string, or `undefined` (also standing in for the
NaN results of arithmetic on non-numbers). -/
inductive JSVal where
  | num (value : ℚ)
  | bool (value : Bool)
  | str (value : String)
  | undefined
  deriving DecidableEq, Repr

/-- `typeof v === 'boolean'`. -/
def JSVal.isBool : JSVal → Bool
  | .bool _ => true
  | _ => false

/-- JavaScript multiplication as used on configuration values: numeric when
both operands are numbers, otherwise a NaN-like junk value. -/
def JSVal.jsMul : JSVal → JSVal → JSVal
  | .num a, .num b => .num (a * b)
  | _, _ => .undefined

/-- JavaScript truthiness of a `JSVal`. -/
def truthy : JSVal → Bool
  | .num q => q != 0
  | .bool b => b
  | .str s => s != ""
  | .undefined => false

/-- The sonar configuration object; `none` means the property is absent
(`hasOwnProperty` is false). -/
structure SonarConfig where
  polling_interval : Option JSVal
  distance_threshold_change_notification : Option JSVal
  trigger_out : Option JSVal
  echo_in : Option JSVal
  detect_threshold_min : Option JSVal
  detect_threshold_max : Option JSVal
  deriving DecidableEq, Repr

/-- `typeof o === 'number'` for a possibly-absent property. -/
def propIsNum (o : Option JSVal) : Bool :=
  match o with
  | some (JSVal.num _) => true
  | _ => false

/-- Numeric value of a property known to be a number (junk `0` otherwise;
every use below is guarded by `propIsNum`). -/
def propNum (o : Option JSVal) : ℚ :=
  match o with
  | some (JSVal.num q) => q
  | _ => 0

/-- sonarSensor.js `_MINIMUM_SONAR_POLLING_INTERVAL` (seconds). -/
def MINIMUM_SONAR_POLLING_INTERVAL : ℚ := 0.25

/-- sonarSensor.js `SonarSensor.ValidateConfiguration`, conjunct by conjunct:
optional `polling_interval` (number, at least the minimum polling interval),
optional `distance_threshold_change_notification` (number, no bound checked),
required numeric `trigger_out`, `echo_in`, `detect_threshold_min` and
`detect_threshold_max`, and `detect_threshold_max > detect_threshold_min`. -/
def SonarValidateConfiguration (c : SonarConfig) : Bool :=
  ((!c.polling_interval.isSome) ||
    (propIsNum c.polling_interval &&
      decide (MINIMUM_SONAR_POLLING_INTERVAL ≤ propNum c.polling_interval))) &&
  ((!c.distance_threshold_change_notification.isSome) ||
    propIsNum c.distance_threshold_change_notification) &&
  (c.trigger_out.isSome && propIsNum c.trigger_out) &&
  (c.echo_in.isSome && propIsNum c.echo_in) &&
  (c.detect_threshold_min.isSome && propIsNum c.detect_threshold_min) &&
  (c.detect_threshold_max.isSome && propIsNum c.detect_threshold_max) &&
  decide (propNum c.detect_threshold_min < propNum c.detect_threshold_max)

/-- The configuration-derived fields assigned by the `SonarSensor`
constructor. -/
structure SonarState where
  sonarPingInterval : JSVal
  distanceThreshold : JSVal
  gpioTriggerOut : JSVal
  gpioEchoIn : JSVal
  detectMin : JSVal
  detectMax : JSVal
  deriving DecidableEq, Repr

/-- sonarSensor.js `SonarSensor` constructor, faithfully: the result of
`ValidateConfiguration` is computed but its boolean is discarded (nothing is
thrown), then the configuration is consumed.  Note the source consults
`hasOwnProperty('polling_interval')` — not the threshold property — when
choosing between `distance_threshold_change_notification` and the 0.08 m
default. -/
def sonarConstruct (configuration : SonarConfig) : Except String SonarState :=
  let _configValid := SonarValidateConfiguration configuration
  Except.ok
    { sonarPingInterval :=
        JSVal.jsMul
          (if configuration.polling_interval.isSome then
            configuration.polling_interval.getD JSVal.undefined
          else JSVal.num 5.0)
          (JSVal.num 1000.0)
      distanceThreshold :=
        if configuration.polling_interval.isSome then
          configuration.distance_threshold_change_notification.getD JSVal.undefined
        else JSVal.num 0.08
      gpioTriggerOut := configuration.trigger_out.getD JSVal.undefined
      gpioEchoIn := configuration.echo_in.getD JSVal.undefined
      detectMin := configuration.detect_threshold_min.getD JSVal.undefined
      detectMax := configuration.detect_threshold_max.getD JSVal.undefined }

/-! ## Sonar distance measurement (sonarSensor.js) -/

/-- sonarSensor.js `_NOMINAL_SPEED_OF_SOUND` (meters per second). -/
def NOMINAL_SPEED_OF_SOUND : ℚ := 343.0

/-- `DISTANCE_FACTOR` from `_performDistanceMeasurement` (round trip). -/
def DISTANCE_FACTOR : ℚ := 2.0

/-- sonarSensor.js `_INVALID_DISTANCE` sentinel (meters). -/
def INVALID_DISTANCE : ℚ := -1000.0

/-- The fields of a `SonarSensor` instance used by
`_performDistanceMeasurement` (all numeric; the threshold and detect range
come from a validated configuration). -/
structure SonarMeasState where
  lastDistanceReading : ℚ
  referenceDistanceReading : ℚ
  distanceAge : ℚ
  distanceThreshold : ℚ
  detectMin : ℚ
  detectMax : ℚ
  result : SENSOR_RESULT
  deriving DecidableEq, Repr

/-- Events a sonar measurement can emit. -/
inductive SonarEvent where
  | distance_changed (oldDistance newDistance : ℚ)
  | result_changed (oldResult newResult : SENSOR_RESULT)
  deriving DecidableEq, Repr

/-- Discriminator for `result_changed` events. -/
def SonarEvent.isResultChanged : SonarEvent → Bool
  | .result_changed _ _ => true
  | _ => false

/-- sonarSensor.js `_performDistanceMeasurement`: convert the elapsed echo
time (milliseconds) to a distance, raise `distance_changed` when the change
threshold is met (updating the reference), classify the detection result from
the detect range, and publish it through the shared `_setResult`. -/
def performDistanceMeasurement (s : SonarMeasState)
    (elapsedTime measurementCompleteTime : ℚ) :
    SonarMeasState × List SonarEvent :=
  let lastDistanceReading : ℚ :=
    (NOMINAL_SPEED_OF_SOUND * (elapsedTime / 1000.0)) / DISTANCE_FACTOR
  let distanceChanged : Bool :=
    decide (s.distanceThreshold ≤ |lastDistanceReading - s.referenceDistanceReading|)
  let referenceDistanceReading : ℚ :=
    if distanceChanged then lastDistanceReading else s.referenceDistanceReading
  let distEvents : List SonarEvent :=
    if distanceChanged then
      [SonarEvent.distance_changed s.referenceDistanceReading lastDistanceReading]
    else []
  let newResult : SENSOR_RESULT :=
    if s.detectMin ≤ lastDistanceReading ∧ lastDistanceReading ≤ s.detectMax then
      SENSOR_RESULT.DETECTED
    else SENSOR_RESULT.UNDETECTED
  let res := setResultCore s.result newResult
  ({ s with
      lastDistanceReading := lastDistanceReading,
      referenceDistanceReading := referenceDistanceReading,
      distanceAge := measurementCompleteTime,
      result := res.1 },
   distEvents ++ res.2.map (fun p => SonarEvent.result_changed p.1 p.2))

/-! ## Door controller (doorCntrl.js) -/

/-- doorCntrl.js `_DOOR_CNTRL_SWITCH_DEBOUNCE` (milliseconds). -/
def DOOR_CNTRL_SWITCH_DEBOUNCE : ℕ := 500

/-- doorCntrl.js `_DOOR_CTRL_REQ_TIME` — relay pulse width (milliseconds). -/
def DOOR_CTRL_REQ_TIME : ℕ := 100

/-- doorCntrl.js `_DOOR_ACTIVATION_TIMEOUT` — activation watchdog
(milliseconds). -/
def DOOR_ACTIVATION_TIMEOUT : ℕ := 30000

/-- Events a `DoorController` can produce: the `state_change (old, new)`
notification, and a 100 ms active-low pulse on the control-relay line. -/
inductive DoorEvent where
  | state_change (oldState newState : DOOR_STATE)
  | relayPulse
  deriving DecidableEq, Repr

/-- The fields of a `DoorController` instance that the activation, watchdog,
lock and teardown logic read or write.  `doorActivationWatchdogId` is the
armed activation watchdog together with the `DOOR_STATE` it captured when it
was scheduled (`none` when no watchdog is outstanding);
`debounceTimerIdDoorCntrl` records whether a manual-button debounce timeout
is outstanding.  The two GPIO output levels are the last values written to
`state_indicator` and `control_request`. -/
structure DoorCtrl where
  initialized : Bool
  doorLocked : JSVal
  currentDoorState : DOOR_STATE
  doorActivationWatchdogId : Option DOOR_STATE
  debounceTimerIdDoorCntrl : Bool
  gpioChanStateIndicatorLevel : Bool
  gpioChanCtrlRequestLevel : Bool
  deriving DecidableEq, Repr

/-- doorCntrl.js `_determineDoorState`, translated statement by statement.
The local `doorState` is initialised to `UNKNOWN`; the source's first
conditional chain (`if`/`else if`) handles the combinations whose open-sensor
result is `UNKNOWN` or `UNDETECTED`; in the `(UNDETECTED, UNDETECTED)` case
the `OPENING`/`CLOSING`/default switch branches are a no-op on the local
(`// No-Op. Leave the door state as-is.`), so the local keeps its `UNKNOWN`
initialisation.  The source then starts a fresh `if` (not `else if`) for the
`DETECTED` open-sensor combinations. -/
def determineDoorState (openResult closedResult : SENSOR_RESULT)
    (currentDoorState : DOOR_STATE) : DOOR_STATE :=
  let doorState0 : DOOR_STATE := DOOR_STATE.UNKNOWN
  let doorState1 : DOOR_STATE :=
    if openResult = .UNKNOWN ∧ closedResult = .UNKNOWN then
      DOOR_STATE.UNKNOWN
    else if openResult = .UNKNOWN ∧ closedResult = .UNDETECTED then
      DOOR_STATE.OPEN
    else if openResult = .UNKNOWN ∧ closedResult = .DETECTED then
      DOOR_STATE.CLOSED
    else if openResult = .UNDETECTED ∧ closedResult = .UNKNOWN then
      DOOR_STATE.CLOSED
    else if openResult = .UNDETECTED ∧ closedResult = .UNDETECTED then
      match currentDoorState with
      | .OPEN => DOOR_STATE.CLOSING
      | .CLOSED => DOOR_STATE.OPENING
      | .UNKNOWN => DOOR_STATE.UNKNOWN
      | .OPENING => doorState0
      | .CLOSING => doorState0
    else if openResult = .UNDETECTED ∧ closedResult = .DETECTED then
      DOOR_STATE.CLOSED
    else doorState0
  if openResult = .DETECTED ∧ closedResult = .UNKNOWN then
    DOOR_STATE.OPEN
  else if openResult = .DETECTED ∧ closedResult = .UNDETECTED then
    DOOR_STATE.OPEN
  else if openResult = .DETECTED ∧ closedResult = .DETECTED then
    DOOR_STATE.UNKNOWN
  else doorState1

/-- doorCntrl.js `_updateDoorState`: cache the old state, install the new
state, drive the indicator (lit unless the door is closed), clear any
outstanding activation watchdog, and emit one `state_change (old, new)`
notification — unconditionally, with no equality check. -/
def updateDoorState (s : DoorCtrl) (newDoorState : DOOR_STATE) :
    DoorCtrl × List DoorEvent :=
  let lastState := s.currentDoorState
  ({ s with
      currentDoorState := newDoorState,
      gpioChanStateIndicatorLevel := !(decide (newDoorState = DOOR_STATE.CLOSED)),
      doorActivationWatchdogId := none },
   [DoorEvent.state_change lastState newDoorState])

/-- doorCntrl.js `_doActivateDoor`: when the controller is initialized and
(not soft-locked, or the lock is overridden), clear any outstanding watchdog,
pulse the relay active-low (restored high after `_DOOR_CTRL_REQ_TIME`), and
arm a fresh activation watchdog capturing the current `DoorState`; otherwise
a logged no-op. -/
def doActivateDoor (s : DoorCtrl) (overrideLock : Bool) :
    DoorCtrl × List DoorEvent :=
  if s.initialized && ((!truthy s.doorLocked) || overrideLock) then
    ({ s with
        doorActivationWatchdogId := some s.currentDoorState,
        gpioChanCtrlRequestLevel := true },
     [DoorEvent.relayPulse])
  else (s, [])

/-- Expiry of the activation watchdog: the scheduled callback runs
`_updateDoorState` on the captured pre-command state.  A watchdog that was
cleared (`clearTimeout`) never runs, so with no watchdog outstanding nothing
happens. -/
def doorWatchdogFire (s : DoorCtrl) : DoorCtrl × List DoorEvent :=
  match s.doorActivationWatchdogId with
  | some capturedState => updateDoorState s capturedState
  | none => (s, [])

/-- doorCntrl.js `Terminate`: clears the manual-control debounce timer when
outstanding (`_debounceTimerIdDoorCntrl` is the only timer field it touches),
writes the state indicator low and the (active-low) control-relay line high,
and clears the initialized flag.  `_doorActivationWatchdogId` is not
cleared. -/
def doorTerminate (s : DoorCtrl) : DoorCtrl :=
  { s with
      debounceTimerIdDoorCntrl := false,
      gpioChanStateIndicatorLevel := false,
      gpioChanCtrlRequestLevel := true,
      initialized := false }

/-- doorCntrl.js `set DoorLocked(locked)`: assign the soft-lock flag only when
the supplied value is a boolean (`typeof locked === 'boolean'`); otherwise do
nothing. -/
def setDoorLocked (s : DoorCtrl) (locked : JSVal) : DoorCtrl :=
  if locked.isBool then { s with doorLocked := locked } else s

/-! ## Spec-side comparison definitions and concrete inputs -/

/-- The section 4.3 truth table of the specification, written from the spec's
words for comparison with `determineDoorState` (the `(N, N)` row is the
previous-state-dependent one, with `previousState ∈ {Opening, Closing}`
mapped to "unchanged"). -/
def specDoorStateTable (o c : SENSOR_RESULT) (previousState : DOOR_STATE) :
    DOOR_STATE :=
  match o, c with
  | .UNKNOWN, .UNKNOWN => DOOR_STATE.UNKNOWN
  | .UNKNOWN, .UNDETECTED => DOOR_STATE.OPEN
  | .UNKNOWN, .DETECTED => DOOR_STATE.CLOSED
  | .UNDETECTED, .UNKNOWN => DOOR_STATE.CLOSED
  | .UNDETECTED, .UNDETECTED =>
    match previousState with
    | .OPEN => DOOR_STATE.CLOSING
    | .CLOSED => DOOR_STATE.OPENING
    | .UNKNOWN => DOOR_STATE.UNKNOWN
    | .OPENING => DOOR_STATE.OPENING
    | .CLOSING => DOOR_STATE.CLOSING
  | .UNDETECTED, .DETECTED => DOOR_STATE.CLOSED
  | .DETECTED, .UNKNOWN => DOOR_STATE.OPEN
  | .DETECTED, .UNDETECTED => DOOR_STATE.OPEN
  | .DETECTED, .DETECTED => DOOR_STATE.UNKNOWN

/-- The acceptance condition actually enforced by
`SonarValidateConfiguration`, stated relationally. -/
def sonarConfigAccepted (c : SonarConfig) : Prop :=
  (c.polling_interval = none ∨
    ∃ q : ℚ, c.polling_interval = some (JSVal.num q) ∧
      MINIMUM_SONAR_POLLING_INTERVAL ≤ q) ∧
  (c.distance_threshold_change_notification = none ∨
    ∃ q : ℚ, c.distance_threshold_change_notification = some (JSVal.num q)) ∧
  (∃ q : ℚ, c.trigger_out = some (JSVal.num q)) ∧
  (∃ q : ℚ, c.echo_in = some (JSVal.num q)) ∧
  (∃ qmin qmax : ℚ,
    c.detect_threshold_min = some (JSVal.num qmin) ∧
    c.detect_threshold_max = some (JSVal.num qmax) ∧ qmin < qmax)

/-- The acceptance condition claimed by the specification (threshold strictly
positive when present, detect range with `max > min ≥ 0`), written from the
spec's words for comparison with `SonarValidateConfiguration`. -/
def sonarConfigClaimedOK (c : SonarConfig) : Prop :=
  (c.polling_interval = none ∨
    ∃ q : ℚ, c.polling_interval = some (JSVal.num q) ∧
      MINIMUM_SONAR_POLLING_INTERVAL ≤ q) ∧
  (c.distance_threshold_change_notification = none ∨
    ∃ q : ℚ, c.distance_threshold_change_notification = some (JSVal.num q) ∧
      0 < q) ∧
  (∃ q : ℚ, c.trigger_out = some (JSVal.num q)) ∧
  (∃ q : ℚ, c.echo_in = some (JSVal.num q)) ∧
  (∃ qmin qmax : ℚ,
    c.detect_threshold_min = some (JSVal.num qmin) ∧
    c.detect_threshold_max = some (JSVal.num qmax) ∧ 0 ≤ qmin ∧ qmin < qmax)

/-- A freshly-seeded normally-closed proximity sensor (initial synchronous
read of a low line gives `UNDETECTED`) with an idle event loop. -/
def proxSim0 : ProxSim :=
  { sensor :=
      { result := SENSOR_RESULT.UNDETECTED,
        switchMode := PROX_SWITCH_MODE_NORMALLY_CLOSED,
        debounceTimerIdSwitchState := none,
        debounceTimerIdDoorState := none },
    pendingTimers := [],
    nextTimerId := 0,
    published := [] }

/-- A sonar configuration with every property absent — invalid (the required
line assignments and detect range are missing). -/
def sonarBadCfg : SonarConfig :=
  { polling_interval := none,
    distance_threshold_change_notification := none,
    trigger_out := none,
    echo_in := none,
    detect_threshold_min := none,
    detect_threshold_max := none }

/-- A sonar configuration with a negative change threshold and a negative
detect range: accepted by the code's validation, rejected by the claim's
condition. -/
def c6bad : SonarConfig :=
  { polling_interval := none,
    distance_threshold_change_notification := some (JSVal.num (-1)),
    trigger_out := some (JSVal.num 15),
    echo_in := some (JSVal.num 16),
    detect_threshold_min := some (JSVal.num (-5)),
    detect_threshold_max := some (JSVal.num (-1)) }

/-- A fully valid sonar configuration. -/
def c6good : SonarConfig :=
  { polling_interval := some (JSVal.num 1),
    distance_threshold_change_notification := some (JSVal.num 0.08),
    trigger_out := some (JSVal.num 15),
    echo_in := some (JSVal.num 16),
    detect_threshold_min := some (JSVal.num 0.10),
    detect_threshold_max := some (JSVal.num 0.50) }

/-- A valid sonar configuration with no polling interval (threshold present
or not, the 0.08 m default is taken). -/
def c6noPoll : SonarConfig :=
  { polling_interval := none,
    distance_threshold_change_notification := none,
    trigger_out := some (JSVal.num 15),
    echo_in := some (JSVal.num 16),
    detect_threshold_min := some (JSVal.num 0.10),
    detect_threshold_max := some (JSVal.num 0.50) }

/-- A valid sonar configuration with a polling interval but no change
threshold. -/
def c6pollOnly : SonarConfig :=
  { polling_interval := some (JSVal.num 1),
    distance_threshold_change_notification := none,
    trigger_out := some (JSVal.num 15),
    echo_in := some (JSVal.num 16),
    detect_threshold_min := some (JSVal.num 0.10),
    detect_threshold_max := some (JSVal.num 0.50) }

/-- Sonar measurement state configured with the spec's scenario detect range
`[0.10, 0.50]` and freshly reset readings. -/
def sonar7 : SonarMeasState :=
  { lastDistanceReading := INVALID_DISTANCE,
    referenceDistanceReading := INVALID_DISTANCE,
    distanceAge := 0,
    distanceThreshold := 0.08,
    detectMin := 0.10,
    detectMax := 0.50,
    result := SENSOR_RESULT.UNKNOWN }

/-- An initialized, unlocked door with no outstanding timers. -/
def d2w : DoorCtrl :=
  { initialized := true,
    doorLocked := JSVal.bool false,
    currentDoorState := DOOR_STATE.CLOSED,
    doorActivationWatchdogId := none,
    debounceTimerIdDoorCntrl := false,
    gpioChanStateIndicatorLevel := false,
    gpioChanCtrlRequestLevel := true }

/-- An initialized but soft-locked door. -/
def d3locked : DoorCtrl :=
  { initialized := true,
    doorLocked := JSVal.bool true,
    currentDoorState := DOOR_STATE.OPEN,
    doorActivationWatchdogId := none,
    debounceTimerIdDoorCntrl := false,
    gpioChanStateIndicatorLevel := true,
    gpioChanCtrlRequestLevel := true }

/-- An initialized, soft-locked door used for the override case. -/
def d3init : DoorCtrl :=
  { initialized := true,
    doorLocked := JSVal.bool true,
    currentDoorState := DOOR_STATE.CLOSED,
    doorActivationWatchdogId := none,
    debounceTimerIdDoorCntrl := false,
    gpioChanStateIndicatorLevel := false,
    gpioChanCtrlRequestLevel := true }

/-- A door mid-activation: watchdog armed (capturing `OPEN`), manual debounce
timer outstanding, indicator lit, relay mid-pulse. -/
def d8 : DoorCtrl :=
  { initialized := true,
    doorLocked := JSVal.bool true,
    currentDoorState := DOOR_STATE.OPEN,
    doorActivationWatchdogId := some DOOR_STATE.OPEN,
    debounceTimerIdDoorCntrl := true,
    gpioChanStateIndicatorLevel := true,
    gpioChanCtrlRequestLevel := false }

/-- A locked door with a boolean lock flag, target of the setter claims. -/
def d10 : DoorCtrl :=
  { initialized := true,
    doorLocked := JSVal.bool true,
    currentDoorState := DOOR_STATE.CLOSED,
    doorActivationWatchdogId := none,
    debounceTimerIdDoorCntrl := false,
    gpioChanStateIndicatorLevel := false,
    gpioChanCtrlRequestLevel := true }

/-! ## Theorems for the claims -/

/-- Claim C1: `_determineDoorState` is claimed to match the section 4.3 truth
table for every sensor pair and prior state, with prior `OPENING`/`CLOSING`
unchanged when both sensors report `UNDETECTED`.  The code instead returns
`UNKNOWN` in those two cells (the switch branch is a no-op on a local
initialised to `UNKNOWN`, despite its "Leave the door state as-is" comment);
every other cell matches the table. -/
theorem C1_determine_door_state_diverges :
    determineDoorState .UNDETECTED .UNDETECTED .OPENING = DOOR_STATE.UNKNOWN ∧
    determineDoorState .UNDETECTED .UNDETECTED .CLOSING = DOOR_STATE.UNKNOWN ∧
    specDoorStateTable .UNDETECTED .UNDETECTED .OPENING = DOOR_STATE.OPENING ∧
    specDoorStateTable .UNDETECTED .UNDETECTED .CLOSING = DOOR_STATE.CLOSING ∧
    (∀ o c p, determineDoorState o c p = specDoorStateTable o c p ∨
      (o = SENSOR_RESULT.UNDETECTED ∧ c = SENSOR_RESULT.UNDETECTED ∧
        (p = DOOR_STATE.OPENING ∨ p = DOOR_STATE.CLOSING))) := by
  decide

/-- Claim C4: rapid alternating edges are claimed to cancel the pending
debounce timer so that exactly one `DetectionResult` change is published.
In the code the cancel check reads `_debounceTimerIdSwitchState` while the
scheduled timer id is cached in `_debounceTimerIdDoorState`, so no timer is
ever cancelled: three alternating edges within the window leave three pending
timers and publish three result changes, not one. -/
theorem C4_debounce_not_coalesced :
    ([true, false, true].foldl proxStateChange proxSim0).pendingTimers.length = 3 ∧
    (runRapidEdges proxSim0 [true, false, true]).published =
      [(SENSOR_RESULT.UNDETECTED, SENSOR_RESULT.DETECTED),
       (SENSOR_RESULT.DETECTED, SENSOR_RESULT.UNDETECTED),
       (SENSOR_RESULT.UNDETECTED, SENSOR_RESULT.DETECTED)] ∧
    (runRapidEdges proxSim0 [true, false, true]).published.length ≠ 1 := by
  decide

/-- Claim C5: constructing a sensor from an invalid configuration is claimed
to raise an error synchronously.  The `SonarSensor` constructor computes
`ValidateConfiguration` but discards the boolean (despite the comment
"Throws an exception if false"), so a configuration that fails validation
still constructs without any error. -/
theorem C5_sonar_construct_without_error :
    SonarValidateConfiguration sonarBadCfg = false ∧
    (sonarConstruct sonarBadCfg).toOption =
      some
        { sonarPingInterval := JSVal.num 5000,
          distanceThreshold := JSVal.num 0.08,
          gpioTriggerOut := JSVal.undefined,
          gpioEchoIn := JSVal.undefined,
          detectMin := JSVal.undefined,
          detectMax := JSVal.undefined } := by
  refine ⟨by decide, ?_⟩
  simp only [sonarConstruct, sonarBadCfg, JSVal.jsMul, Except.toOption]
  norm_num

/-- Claim C8: `Terminate` is claimed to cancel every armed timer including
the activation watchdog.  It is idempotent and does safe-default the outputs
(indicator low, active-low relay line high, initialized cleared, manual
debounce timer cleared), but the armed activation watchdog survives and can
still fire a `state_change` after teardown. -/
theorem C8_terminate_leaves_watchdog :
    (doorTerminate d8).doorActivationWatchdogId = some DOOR_STATE.OPEN ∧
    (doorTerminate d8).initialized = false ∧
    (doorTerminate d8).gpioChanCtrlRequestLevel = true ∧
    (doorTerminate d8).gpioChanStateIndicatorLevel = false ∧
    (doorTerminate d8).debounceTimerIdDoorCntrl = false ∧
    doorTerminate (doorTerminate d8) = doorTerminate d8 ∧
    (doorWatchdogFire (doorTerminate d8)).2 ≠ [] := by
  decide

/-- Claim C9: every call to `_updateDoorState` emits exactly one
`state_change` notification — even when the new state equals the current one
— and clears any outstanding activation watchdog; sensor results, by
contrast, suppress duplicate notifications in `_setResult`. -/
theorem C9_update_door_state_always_notifies (s : DoorCtrl)
    (newDoorState : DOOR_STATE) :
    (updateDoorState s newDoorState).2 =
      [DoorEvent.state_change s.currentDoorState newDoorState] ∧
    (updateDoorState s newDoorState).1.doorActivationWatchdogId = none ∧
    (updateDoorState s newDoorState).1.currentDoorState = newDoorState ∧
    (∀ r : SENSOR_RESULT, setResultCore r r = (r, [])) := by
  refine ⟨rfl, rfl, rfl, ?_⟩
  intro r
  simp [setResultCore]

/-- Claim C2: a door activation that passes the lock gate arms a watchdog
capturing the `DoorState` at activation time; left alone, its expiry produces
exactly one `state_change` carrying that captured state; and any
sensor-driven `_updateDoorState` beforehand clears the watchdog, after which
it can produce no event. -/
theorem C2_activation_watchdog_lifecycle (s : DoorCtrl) (overrideLock : Bool)
    (hGate : (s.initialized && ((!truthy s.doorLocked) || overrideLock)) = true) :
    (doActivateDoor s overrideLock).1.doorActivationWatchdogId =
      some s.currentDoorState ∧
    (doorWatchdogFire (doActivateDoor s overrideLock).1).2 =
      [DoorEvent.state_change s.currentDoorState s.currentDoorState] ∧
    (∀ newDoorState : DOOR_STATE,
      (updateDoorState (doActivateDoor s overrideLock).1
          newDoorState).1.doorActivationWatchdogId = none ∧
      (doorWatchdogFire (updateDoorState (doActivateDoor s overrideLock).1
          newDoorState).1).2 = []) := by
  simp [doActivateDoor, hGate, doorWatchdogFire, updateDoorState]

/-- Witness for C2 at a concrete initialized, unlocked door. -/
theorem C2_activation_watchdog_lifecycle_witness :
    (doActivateDoor d2w false).1.doorActivationWatchdogId =
      some d2w.currentDoorState ∧
    (doorWatchdogFire (doActivateDoor d2w false).1).2 =
      [DoorEvent.state_change d2w.currentDoorState d2w.currentDoorState] ∧
    (∀ newDoorState : DOOR_STATE,
      (updateDoorState (doActivateDoor d2w false).1
          newDoorState).1.doorActivationWatchdogId = none ∧
      (doorWatchdogFire (updateDoorState (doActivateDoor d2w false).1
          newDoorState).1).2 = []) :=
  C2_activation_watchdog_lifecycle d2w false (by decide)

/-- Claim C3: `_doActivateDoor(false)` on a locked (or uninitialized) door is
a complete no-op — no relay pulse, no watchdog, relay line, timers and
`DoorState` all unchanged — while `_doActivateDoor(true)` on an initialized
door proceeds regardless of the lock. -/
theorem C3_lock_gating (s : DoorCtrl) :
    ((s.initialized = false ∨ truthy s.doorLocked = true) →
      doActivateDoor s false = (s, [])) ∧
    (s.initialized = true →
      (doActivateDoor s true).2 = [DoorEvent.relayPulse] ∧
      (doActivateDoor s true).1.doorActivationWatchdogId =
        some s.currentDoorState) := by
  constructor
  · rintro (h | h) <;> simp [doActivateDoor, h]
  · intro h
    simp [doActivateDoor, h]

/-- Witness for C3: a locked door is left untouched; an initialized locked
door still activates under override. -/
theorem C3_lock_gating_witness :
    doActivateDoor d3locked false = (d3locked, []) ∧
    (doActivateDoor d3init true).2 = [DoorEvent.relayPulse] :=
  ⟨(C3_lock_gating d3locked).1 (Or.inr rfl), ((C3_lock_gating d3init).2 rfl).1⟩

/-- `_setResult` always caches the requested result. -/
theorem setResultCore_fst (o n : SENSOR_RESULT) : (setResultCore o n).1 = n := by
  by_cases h : o = n <;> simp [setResultCore, h]

/-- `_setResult` emits one notification exactly when the result changed. -/
theorem setResultCore_snd (o n : SENSOR_RESULT) :
    (setResultCore o n).2 = if o = n then [] else [(o, n)] := by
  by_cases h : o = n <;> simp [setResultCore, h]

/-- Filtering for `result_changed` keeps everything `_setResult` emitted. -/
theorem filter_rc_map (l : List (SENSOR_RESULT × SENSOR_RESULT)) :
    (l.map (fun p => SonarEvent.result_changed p.1 p.2)).filter
        SonarEvent.isResultChanged =
      l.map (fun p => SonarEvent.result_changed p.1 p.2) := by
  induction l with
  | nil => rfl
  | cons hd tl ih => simp [SonarEvent.isResultChanged, ih]

/-- Filtering for `result_changed` drops any `distance_changed` emission. -/
theorem filter_rc_dist (b : Bool) (o n : ℚ) :
    ((if b then [SonarEvent.distance_changed o n] else []).filter
        SonarEvent.isResultChanged) = [] := by
  cases b <;> simp [SonarEvent.isResultChanged]

/-- Claim C7: for every elapsed echo time `t ≥ 0` (ms), the measured distance
is `343.0 * (t/1000.0) / 2.0` meters, the cached result is `DETECTED` exactly
when the distance lies within `[detectMin, detectMax]` (`UNDETECTED`
otherwise), and the `result_changed` publication goes through the shared
no-op-if-unchanged contract. -/
theorem C7_sonar_measurement (s : SonarMeasState) (t tc : ℚ) (ht : 0 ≤ t) :
    (performDistanceMeasurement s t tc).1.lastDistanceReading =
      343.0 * (t / 1000.0) / 2.0 ∧
    ((performDistanceMeasurement s t tc).1.result = SENSOR_RESULT.DETECTED ↔
      (s.detectMin ≤ 343.0 * (t / 1000.0) / 2.0 ∧
        343.0 * (t / 1000.0) / 2.0 ≤ s.detectMax)) ∧
    ((performDistanceMeasurement s t tc).1.result = SENSOR_RESULT.DETECTED ∨
      (performDistanceMeasurement s t tc).1.result = SENSOR_RESULT.UNDETECTED) ∧
    ((performDistanceMeasurement s t tc).2.filter SonarEvent.isResultChanged =
      if s.result = (performDistanceMeasurement s t tc).1.result then []
      else [SonarEvent.result_changed s.result
              (performDistanceMeasurement s t tc).1.result]) := by
  have hres : (performDistanceMeasurement s t tc).1.result =
      (if s.detectMin ≤ 343.0 * (t / 1000.0) / 2.0 ∧
          343.0 * (t / 1000.0) / 2.0 ≤ s.detectMax then
        SENSOR_RESULT.DETECTED
      else SENSOR_RESULT.UNDETECTED) := by
    simp [performDistanceMeasurement, setResultCore_fst,
      NOMINAL_SPEED_OF_SOUND, DISTANCE_FACTOR]
  have hev : (performDistanceMeasurement s t tc).2.filter
        SonarEvent.isResultChanged =
      (setResultCore s.result
        (if s.detectMin ≤ 343.0 * (t / 1000.0) / 2.0 ∧
            343.0 * (t / 1000.0) / 2.0 ≤ s.detectMax then
          SENSOR_RESULT.DETECTED
        else SENSOR_RESULT.UNDETECTED)).2.map
        (fun p => SonarEvent.result_changed p.1 p.2) := by
    simp only [performDistanceMeasurement, NOMINAL_SPEED_OF_SOUND,
      DISTANCE_FACTOR, List.filter_append, filter_rc_dist, filter_rc_map,
      List.nil_append]
  refine ⟨rfl, ?_, ?_, ?_⟩
  · rw [hres]
    by_cases hcond : s.detectMin ≤ 343.0 * (t / 1000.0) / 2.0 ∧
        343.0 * (t / 1000.0) / 2.0 ≤ s.detectMax
    · rw [if_pos hcond]
      simpa using hcond
    · rw [if_neg hcond]
      simpa using hcond
  · rw [hres]
    by_cases hcond : s.detectMin ≤ 343.0 * (t / 1000.0) / 2.0 ∧
        343.0 * (t / 1000.0) / 2.0 ≤ s.detectMax
    · rw [if_pos hcond]
      exact Or.inl rfl
    · rw [if_neg hcond]
      exact Or.inr rfl
  · rw [hev, hres, setResultCore_snd]
    by_cases hchg : s.result =
        (if s.detectMin ≤ 343.0 * (t / 1000.0) / 2.0 ∧
            343.0 * (t / 1000.0) / 2.0 ≤ s.detectMax then
          SENSOR_RESULT.DETECTED
        else SENSOR_RESULT.UNDETECTED)
    · rw [if_pos hchg, if_pos hchg]
      rfl
    · rw [if_neg hchg, if_neg hchg]
      rfl

/-- Witness for C7 at `t = 2` ms on the spec's scenario range: distance
`0.343` m, inside `[0.10, 0.50]`, hence `DETECTED`. -/
theorem C7_sonar_measurement_witness :
    (performDistanceMeasurement sonar7 2 5).1.lastDistanceReading =
      343.0 * ((2 : ℚ) / 1000.0) / 2.0 ∧
    (performDistanceMeasurement sonar7 2 5).1.result =
      SENSOR_RESULT.DETECTED :=
  ⟨(C7_sonar_measurement sonar7 2 5 (by norm_num)).1,
   (C7_sonar_measurement sonar7 2 5 (by norm_num)).2.1.mpr (by norm_num [sonar7])⟩

/-- Claim C10: the `DoorLocked` setter writes only boolean values — a
non-boolean write leaves the whole controller (in particular the lock flag)
unchanged, and a boolean-valued lock flag stays boolean under every write. -/
theorem C10_door_locked_setter (s : DoorCtrl) (v : JSVal) :
    (v.isBool = false → setDoorLocked s v = s) ∧
    (s.doorLocked.isBool = true → (setDoorLocked s v).doorLocked.isBool = true) := by
  constructor
  · intro h
    simp [setDoorLocked, h]
  · intro h
    by_cases hv : v.isBool <;> simp [setDoorLocked, hv, h]

/-- Witness for C10: writing the number `1` to a locked door changes
nothing, and the lock flag stays boolean. -/
theorem C10_door_locked_setter_witness :
    setDoorLocked d10 (JSVal.num 1) = d10 ∧
    (setDoorLocked d10 (JSVal.num 1)).doorLocked.isBool = true :=
  ⟨(C10_door_locked_setter d10 (JSVal.num 1)).1 rfl,
   (C10_door_locked_setter d10 (JSVal.num 1)).2 rfl⟩

/-- Characterisation of the optional polling-interval gate. -/
theorem pollGate_iff (o : Option JSVal) :
    ((!o.isSome) ||
      (propIsNum o &&
        decide (MINIMUM_SONAR_POLLING_INTERVAL ≤ propNum o))) = true ↔
      (o = none ∨
        ∃ q : ℚ, o = some (JSVal.num q) ∧ MINIMUM_SONAR_POLLING_INTERVAL ≤ q) := by
  cases o with
  | none => simp
  | some v => cases v <;> simp [propIsNum, propNum]

/-- Characterisation of the optional change-threshold gate: any number is
accepted. -/
theorem thrGate_iff (o : Option JSVal) :
    ((!o.isSome) || propIsNum o) = true ↔
      (o = none ∨ ∃ q : ℚ, o = some (JSVal.num q)) := by
  cases o with
  | none => simp
  | some v => cases v <;> simp [propIsNum]

/-- Characterisation of a required numeric property. -/
theorem reqNum_iff (o : Option JSVal) :
    (o.isSome && propIsNum o) = true ↔ ∃ q : ℚ, o = some (JSVal.num q) := by
  cases o with
  | none => simp
  | some v => cases v <;> simp [propIsNum]

/-- Claim C6 (amended): `ValidateConfiguration` accepts exactly when the
polling interval is absent or a number at least 0.25 s, the change threshold
is absent or a number (any value — no positivity check), trigger and echo
are present numbers, and the detect range is a pair of present numbers with
`max > min` (no `min ≥ 0` check).  Moreover the constructor's stored change
threshold defaults to 0.08 m exactly when `polling_interval` is absent, and
is `undefined` when `polling_interval` is present but the threshold is
absent. -/
theorem C6_sonar_validation_amended :
    (∀ c : SonarConfig,
      SonarValidateConfiguration c = true ↔ sonarConfigAccepted c) ∧
    (∀ c : SonarConfig, c.polling_interval = none →
      (sonarConstruct c).toOption.map SonarState.distanceThreshold =
        some (JSVal.num 0.08)) ∧
    (∀ c : SonarConfig, c.polling_interval.isSome = true →
      c.distance_threshold_change_notification = none →
      (sonarConstruct c).toOption.map SonarState.distanceThreshold =
        some JSVal.undefined) := by
  refine ⟨?_, ?_, ?_⟩
  · intro c
    unfold SonarValidateConfiguration sonarConfigAccepted
    rw [Bool.and_eq_true, Bool.and_eq_true, Bool.and_eq_true, Bool.and_eq_true,
      Bool.and_eq_true, Bool.and_eq_true]
    constructor
    · rintro ⟨⟨⟨⟨⟨⟨h1, h2⟩, h3⟩, h4⟩, h5⟩, h6⟩, h7⟩
      rw [pollGate_iff] at h1
      rw [thrGate_iff] at h2
      rw [reqNum_iff] at h3 h4 h5 h6
      obtain ⟨qmin, hmin⟩ := h5
      obtain ⟨qmax, hmax⟩ := h6
      rw [decide_eq_true_eq, hmin, hmax] at h7
      refine ⟨h1, h2, h3, h4, qmin, qmax, hmin, hmax, ?_⟩
      simpa [propNum] using h7
    · rintro ⟨h1, h2, h3, h4, qmin, qmax, hmin, hmax, hlt⟩
      refine ⟨⟨⟨⟨⟨⟨?_, ?_⟩, ?_⟩, ?_⟩, ?_⟩, ?_⟩, ?_⟩
      · rw [pollGate_iff]
        exact h1
      · rw [thrGate_iff]
        exact h2
      · rw [reqNum_iff]
        exact h3
      · rw [reqNum_iff]
        exact h4
      · rw [reqNum_iff]
        exact ⟨qmin, hmin⟩
      · rw [reqNum_iff]
        exact ⟨qmax, hmax⟩
      · rw [decide_eq_true_eq, hmin, hmax]
        simpa [propNum] using hlt
  · intro c h
    simp [sonarConstruct, Except.toOption, h]
  · intro c h1 h2
    simp [sonarConstruct, Except.toOption, h1, h2]

/-- Witness for C6: a fully valid configuration is accepted; with
`polling_interval` absent the stored threshold is the 0.08 m default; with it
present and the threshold absent the stored threshold is `undefined`. -/
theorem C6_sonar_validation_amended_witness :
    SonarValidateConfiguration c6good = true ∧
    (sonarConstruct c6noPoll).toOption.map SonarState.distanceThreshold =
      some (JSVal.num 0.08) ∧
    (sonarConstruct c6pollOnly).toOption.map SonarState.distanceThreshold =
      some JSVal.undefined :=
  ⟨(C6_sonar_validation_amended.1 c6good).mpr
      ⟨Or.inr ⟨1, rfl, by norm_num [MINIMUM_SONAR_POLLING_INTERVAL]⟩,
       Or.inr ⟨0.08, rfl⟩, ⟨15, rfl⟩, ⟨16, rfl⟩,
       ⟨0.10, 0.50, rfl, rfl, by norm_num⟩⟩,
   C6_sonar_validation_amended.2.1 c6noPoll rfl,
   C6_sonar_validation_amended.2.2 c6pollOnly rfl rfl⟩

/-- Counterexample for C6 as stated: the configuration `c6bad` carries a
negative change threshold and a negative detect minimum, fails the claim's
acceptance condition, and is nevertheless accepted by the code's
validation. -/
theorem C6_claim_counterexample :
    SonarValidateConfiguration c6bad = true ∧ ¬ sonarConfigClaimedOK c6bad := by
  refine ⟨by decide, ?_⟩
  rintro ⟨-, hthr, -⟩
  rcases hthr with h | ⟨q, hq, hq0⟩
  · exact absurd h (by decide)
  · have : q = (-1 : ℚ) := by
      have := hq
      simp [c6bad] at this
      exact this.symm
    rw [this] at hq0
    norm_num at hq0

end GarageDoor
